import Mathlib

/-!
Shallow embedding of the message-processing pipeline of the chatbot-copilot
repository (backend/src/services/ai/escalation.js, gemini.js,
backend/src/utils/config.js, backend/src/services/vector/pinecone.js and the
message processor).  JavaScript numbers used by the pipeline are exact decimal
constants, embedded as rationals; JavaScript strings are embedded as Lean
strings (all needle constants are surrogate-free, so code-point level substring
search coincides with JS UTF-16 `String.prototype.includes`); a fallible
JavaScript call is embedded as `Except JsError`.
-/

/-- JS `String.prototype.toLowerCase`, restricted to the ASCII range.  Every
needle the pipeline matches against is either Thai (unchanged by
`toLowerCase`) or lower-case ASCII, for which this restriction is exact. -/
def jsToLower (s : String) : String :=
  String.mk (s.toList.map Char.toLower)

/-- Does `needle` occur as a contiguous sublist of `haystack`? -/
def charListInfix (needle : List Char) : List Char → Bool
  | [] => needle.isEmpty
  | h :: t => needle.isPrefixOf (h :: t) || charListInfix needle t

/-- JS `haystack.includes(needle)`: substring containment.  Code-point level
containment agrees with UTF-16 code-unit containment because no needle used by
the pipeline contains a surrogate. -/
def jsIncludes (haystack needle : String) : Bool :=
  charListInfix needle.toList haystack.toList

/-- JS `String.prototype.length`: number of UTF-16 code units (an astral code
point counts for two). -/
def jsStrLen (s : String) : Nat :=
  (s.toList.map (fun c => if c.val ≥ 0x10000 then 2 else 1)).sum

/-- Number of starting positions at which `needle` occurs inside `haystack`. -/
def countOccurrences (haystack needle : String) : Nat :=
  (List.range haystack.toList.length).countP
    (fun i => List.isPrefixOf needle.toList (haystack.toList.drop i))

/- ===================== escalation.js ===================== -/

/-- `SENSITIVE_TOPICS` from escalation.js. -/
def SENSITIVE_TOPICS : List String :=
  ["ร้องเรียน", "complaint", "ไม่พอใจ", "โกรธ", "หลอก", "ฉ้อโกง",
   "ปัญหา", "เงินหาย", "ผิดพลาด", "error", "ฟ้องร้อง", "legal",
   "เสียหาย", "ขอยกเลิก", "ปิดบัญชี", "urgent", "ด่วน"]

/-- `FRUSTRATION_INDICATORS` from escalation.js. -/
def FRUSTRATION_INDICATORS : List String :=
  ["ไม่เข้าใจ", "พูดซ้ำ", "อีกแล้ว", "กี่ครั้ง", "เมื่อไหร่",
   "ทำไม", "ช้า", "รอนาน", "!!!", "???", "เบื่อ"]

/-- `highValueIntents` from escalation.js line 66. -/
def highValueIntents : List String := ["COMPLAINT", "LOAN", "ACCOUNT_CLOSE"]

/-- `humanRequestPhrases` from escalation.js line 73. -/
def humanRequestPhrases : List String :=
  ["ขอคุยกับคน", "ขอเจ้าหน้าที่", "พูดกับคน", "operator", "staff", "human"]

/-- `config.ai.confidenceThreshold` default (0.7, config.js line 59). -/
def confidenceThreshold : ℚ := 0.7

/-- The closed intent vocabulary requested by the structured-extraction prompt
of `detectIntent` (gemini.js line 110). -/
def intentVocabulary : List String :=
  ["OPEN_ACCOUNT", "TRANSFER", "CARD", "LOAN", "COMPLAINT",
   "GENERAL_INQUIRY", "GREETING", "OTHER"]

/-- The shape of a parsed intent object (data model `IntentResult`). -/
structure IntentResult where
  intent : String
  confidence : ℚ
  keywords : List String
  suggestedDepartment : String
  summary : String
  error : Bool
  deriving Repr, DecidableEq

/-- The `factors` record built at the top of `shouldEscalate`. -/
structure EscFactors where
  lowConfidence : Bool
  sensitiveTopics : Bool
  customerFrustration : Bool
  highValueIntent : Bool
  explicitRequest : Bool
  deriving Repr, DecidableEq

/-- `Object.values(factors)` in declaration order. -/
def EscFactors.values (f : EscFactors) : List Bool :=
  [f.lowConfidence, f.sensitiveTopics, f.customerFrustration,
   f.highValueIntent, f.explicitRequest]

/-- The `aiResponse` argument of `shouldEscalate` as the message processor
builds it: response text, generation confidence and (optional) intent object. -/
structure AiResponseInfo where
  response : String
  confidence : ℚ
  intent : Option IntentResult
  deriving Repr

/-- Factors 1–5 of escalation.js `shouldEscalate` (lines 29–80). -/
def computeFactors (message : String) (aiResponse : AiResponseInfo) : EscFactors :=
  let messageLower := jsToLower message
  { lowConfidence := decide (aiResponse.confidence < confidenceThreshold)
    sensitiveTopics :=
      SENSITIVE_TOPICS.any (fun topic => jsIncludes messageLower (jsToLower topic))
    customerFrustration :=
      2 ≤ (FRUSTRATION_INDICATORS.countP
            (fun ind => jsIncludes messageLower (jsToLower ind)))
    highValueIntent :=
      match aiResponse.intent with
      | none => false
      | some io => highValueIntents.contains io.intent
    explicitRequest :=
      humanRequestPhrases.any (fun p => jsIncludes messageLower (jsToLower p)) }

/-- `getEscalationReason` (escalation.js lines 109–119). -/
def getEscalationReason (factors : EscFactors) : String :=
  let reasons :=
    (if factors.lowConfidence then ["AI ไม่แน่ใจในคำตอบ"] else []) ++
    (if factors.sensitiveTopics then ["เรื่องที่ต้องพิจารณาเป็นพิเศษ"] else []) ++
    (if factors.customerFrustration then ["ลูกค้าอาจไม่พอใจ"] else []) ++
    (if factors.highValueIntent then ["เรื่องสำคัญ"] else []) ++
    (if factors.explicitRequest then ["ลูกค้าขอคุยกับเจ้าหน้าที่"] else [])
  let joined := String.intercalate (", ") reasons
  if joined = ("") then ("ไม่ระบุ") else joined

/-- The returned verdict record of `shouldEscalate`. -/
structure EscalationVerdict where
  shouldEscalate : Bool
  factors : EscFactors
  reason : String
  priority : String
  deriving Repr

/-- Priority computation, lines 86–93 of escalation.js. -/
def calcPriority (factors : EscFactors) : String :=
  let activeFactors := (factors.values.filter id).length
  if factors.sensitiveTopics || factors.explicitRequest || decide (3 ≤ activeFactors)
  then ("high")
  else if factors.customerFrustration || factors.highValueIntent || decide (2 ≤ activeFactors)
  then ("medium")
  else ("low")

/-- `shouldEscalate` (escalation.js lines 28–104). -/
def shouldEscalate (message : String) (aiResponse : AiResponseInfo) :
    EscalationVerdict :=
  let factors := computeFactors message aiResponse
  { shouldEscalate := factors.values.any id
    factors := factors
    reason := getEscalationReason factors
    priority := calcPriority factors }

/- ===================== config.js ===================== -/

/-- The mutable `config.gemini` key-pool state: ordered credential list plus
cursor (`apiKeys`, `currentKeyIndex`, config.js lines 29–39). -/
structure GeminiState where
  apiKeys : List String
  currentKeyIndex : Nat
  deriving Repr, DecidableEq

/-- JS falsiness of an optional string environment variable (`undefined` and
the empty string are falsy). -/
def jsFalsyOptStr : Option String → Bool
  | none => true
  | some s => s = ("")

/-- Pool construction (config.js lines 29–39): the eight
`GEMINI_API_KEY_n` environment variables, `.filter(Boolean)`. -/
def mkGeminiApiKeys (env : List (Option String)) : List String :=
  (env.filter (fun o => ¬ jsFalsyOptStr o)).filterMap id

/-- The `config.gemini` object built at module load: filtered key list and
cursor 0.  Construction never fails in the source. -/
def mkGeminiConfig (env : List (Option String)) : GeminiState :=
  { apiKeys := mkGeminiApiKeys env, currentKeyIndex := 0 }

/-- `config.gemini.getNextKey` (config.js lines 83–86): advance the cursor to
`(currentKeyIndex + 1) % apiKeys.length` and return the new current key.  On
an empty pool JS computes `(i+1) % 0 = NaN` and `apiKeys[NaN] = undefined`;
we return `none` and leave the cursor unchanged, which yields the same
returned key (`undefined`/`none`) on this and on every subsequent call. -/
def getNextKey (st : GeminiState) : Option String × GeminiState :=
  if st.apiKeys.length = 0 then
    (none, st)
  else
    let newIndex := (st.currentKeyIndex + 1) % st.apiKeys.length
    (st.apiKeys.get? newIndex, { st with currentKeyIndex := newIndex })

/-- `config.gemini.getCurrentKey` (config.js lines 91–93). -/
def getCurrentKey (st : GeminiState) : Option String :=
  st.apiKeys.get? st.currentKeyIndex

/-- Iterate `getNextKey` (`rotate`) `n` times, keeping only the state. -/
def rotateIter (st : GeminiState) : Nat → GeminiState
  | 0 => st
  | n + 1 => rotateIter (getNextKey st).2 n

/- ===================== gemini.js: retry executor ===================== -/

/-- A thrown JS error: its (optional) `message` property. -/
structure JsError where
  message : Option String
  deriving Repr, DecidableEq

/-- `error.message?.includes('429') || error.message?.includes('quota')`
(gemini.js line 45). -/
def isRateLimitError (e : JsError) : Bool :=
  match e.message with
  | none => false
  | some m => jsIncludes m ("429") || jsIncludes m ("quota")

/-- `initGemini` (gemini.js lines 17–25): read the current key; throw
`'No Gemini API key configured'` when it is falsy. -/
def initGemini (st : GeminiState) : Except JsError Unit :=
  match getCurrentKey st with
  | none => .error ⟨some ("No Gemini API key configured")⟩
  | some k =>
      if k = ("") then .error ⟨some ("No Gemini API key configured")⟩
      else .ok ()

/-- `rotateApiKey` (gemini.js lines 30–35): delegate to `getNextKey`. -/
def rotateApiKey (st : GeminiState) : GeminiState :=
  (getNextKey st).2

/-- Result of one attempt of the retried operation: a value, or a thrown
error. -/
inductive AttemptResult (α : Type) where
  | ok (v : α)
  | err (e : JsError)
  deriving Repr

/-- Terminal outcome of `executeWithRetry`: a returned value (`none` models
JS `undefined`, returned when the loop falls through), or a propagated
exception. -/
inductive RunOutcome (α : Type) where
  | value (v : Option α)
  | thrown (e : JsError)
  deriving Repr

/-- The `for` loop of `executeWithRetry` (gemini.js lines 40–54), from
iteration `i`: on success return the value; on a rate-limit/quota error
rotate the key and retry; on any other error rethrow if this is the last
attempt, otherwise retry after the backoff sleep.  When the loop finishes all
iterations (possible when the final attempt hits a rate-limit error) the JS
function returns `undefined`. -/
def executeWithRetryGo (fn : Nat → AttemptResult α) (maxRetries : Nat) :
    Nat → GeminiState → RunOutcome α × GeminiState
  | i, st =>
    if _h : i < maxRetries then
      match fn i with
      | .ok v => (.value (some v), st)
      | .err e =>
          if isRateLimitError e then
            executeWithRetryGo fn maxRetries (i + 1) (rotateApiKey st)
          else if i = maxRetries - 1 then
            (.thrown e, st)
          else
            executeWithRetryGo fn maxRetries (i + 1) st
    else
      (.value none, st)
termination_by i => maxRetries - i

/-- `executeWithRetry(fn, maxRetries = 3)` (gemini.js lines 40–54); the
attempts of `fn` are given as an oracle indexed by attempt number. -/
def executeWithRetry (fn : Nat → AttemptResult α) (maxRetries : Nat)
    (st : GeminiState) : RunOutcome α × GeminiState :=
  executeWithRetryGo fn maxRetries 0 st

/- ===================== gemini.js: confidence heuristic ===================== -/

/-- `uncertaintyPhrases` (gemini.js line 234). -/
def uncertaintyPhrases : List String :=
  ["ไม่แน่ใจ", "อาจจะ", "น่าจะ", "คิดว่า", "ลองติดต่อ"]

/-- `calculateConfidence` (gemini.js lines 227–246): start at 0.8, subtract
0.1 for each listed phrase contained in the text (`text.includes(phrase)`,
checked once per phrase), add 0.05 when `text.length < 100`, subtract 0.1
when `text.length > 500`, clamp to [0.3, 1.0]. -/
def calculateConfidence (text : String) : ℚ :=
  let afterPhrases :=
    uncertaintyPhrases.foldl
      (fun c phrase => if jsIncludes text phrase then c - 0.1 else c) 0.8
  let afterShort := if jsStrLen text < 100 then afterPhrases + 0.05 else afterPhrases
  let afterLong := if 500 < jsStrLen text then afterShort - 0.1 else afterShort
  max 0.3 (min 1.0 afterLong)

/- ===================== gemini.js: detectIntent ===================== -/

/-- Map a provider attempt outcome through the per-attempt result
processing. -/
def AttemptResult.map (f : α → β) : AttemptResult α → AttemptResult β
  | .ok v => .ok (f v)
  | .err e => .err e

/-- The inline default returned by `detectIntent` when the provider text has
no parseable JSON object (gemini.js lines 132–138). -/
def otherDefaultIntent (message : String) : IntentResult :=
  { intent := ("OTHER"), confidence := 0.5, keywords := []
    suggestedDepartment := ("ทั่วไป"), summary := message, error := false }

/-- The default returned by the `catch` of `detectIntent` when
`executeWithRetry` throws (gemini.js lines 143–150). -/
def generalInquiryIntent (message : String) : IntentResult :=
  { intent := ("GENERAL_INQUIRY"), confidence := 0.3, keywords := []
    suggestedDepartment := ("ทั่วไป"), summary := message, error := true }

/-- The greedy regex `/\x7b[\s\S]*\x7d/` (resp. `/\[[\s\S]*\]/`): the span
from the first `openC` to the last `closeC` occurring after it, if any. -/
def extractDelimited (openC closeC : Char) (s : String) : Option String :=
  let cs := s.toList
  match cs.findIdx? (fun c => c = openC) with
  | none => none
  | some i =>
    match cs.reverse.findIdx? (fun c => c = closeC) with
    | none => none
    | some rj =>
      let j := cs.length - 1 - rj
      if i < j then some (String.mk ((cs.drop i).take (j - i + 1))) else none

/-- Per-attempt body of `detectIntent` after a successful provider call
(gemini.js lines 122–138): scan for a JSON object substring, `JSON.parse` it
(`jsonParse` is the oracle for the platform JSON parser; `none` models a
parse exception), and fall back to the inline OTHER default. -/
def parseIntentAttempt (jsonParse : String → Option IntentResult)
    (message text : String) : IntentResult :=
  match extractDelimited '{' '}' text with
  | some candidate =>
      match jsonParse candidate with
      | some parsed => parsed
      | none => otherDefaultIntent message
  | none => otherDefaultIntent message

/-- `detectIntent` (gemini.js lines 101–152).  `geminiReady` is JS
`model !== null`; `attempts i` is the outcome of the `i`-th
`model.generateContent` call.  The leading `if (!model) initGemini()` sits
*before* the `try`, so an initialization failure propagates; the `try` around
`executeWithRetry` converts a thrown error into the GENERAL_INQUIRY default;
a retry loop that falls through (rate-limited final attempt) makes the JS
function return `undefined`, embedded as `none`. -/
def detectIntent (geminiReady : Bool) (st : GeminiState)
    (attempts : Nat → AttemptResult String)
    (jsonParse : String → Option IntentResult) (message : String) :
    Except JsError (Option IntentResult) :=
  match (if geminiReady then .ok () else initGemini st) with
  | .error e => .error e
  | .ok _ =>
    match executeWithRetry
        (fun i => (attempts i).map (parseIntentAttempt jsonParse message)) 3 st with
    | (.value v, _) => .ok v
    | (.thrown _, _) => .ok (some (generalInquiryIntent message))

/- ===================== gemini.js: generateResponse ===================== -/

/-- The record built from a successful generation attempt
(gemini.js lines 89–93). -/
structure GenerationResult where
  text : String
  confidence : ℚ
  tokensUsed : Nat
  deriving Repr, DecidableEq

/-- `generateResponse` (gemini.js lines 62–95).  The prompt is sent to the
provider, whose `i`-th reply text is the oracle `attempts i` (with
`tokens i` the reported `usageMetadata.totalTokenCount`).  There is no
`try`/`catch`: an initialization failure or a thrown retry error propagates;
a fallen-through retry loop yields JS `undefined` (`none`). -/
def generateResponse (geminiReady : Bool) (st : GeminiState)
    (attempts : Nat → AttemptResult String) (tokens : Nat → Nat) :
    Except JsError (Option GenerationResult) :=
  match (if geminiReady then .ok () else initGemini st) with
  | .error e => .error e
  | .ok _ =>
    match executeWithRetry
        (fun i => (attempts i).map
          (fun text => GenerationResult.mk text (calculateConfidence text) (tokens i)))
        3 st with
    | (.value v, _) => .ok v
    | (.thrown e, _) => .error e

/- ===================== gemini.js: generateQuickReplies ===================== -/

/-- A suggested staff reply (gemini.js lines 216–220). -/
structure QuickReply where
  text : String
  confidence : ℚ
  deriving Repr, DecidableEq

/-- The fallback suggestions of `generateQuickReplies`
(gemini.js lines 216–220). -/
def defaultQuickReplies : List QuickReply :=
  [⟨"ได้เลยครับ กรุณารอสักครู่", 0.7⟩,
   ⟨"ขอข้อมูลเพิ่มเติมได้ไหมครับ", 0.6⟩,
   ⟨"สนใจบริการอื่นอีกไหมครับ", 0.5⟩]

/-- Per-attempt body of `generateQuickReplies` after a successful provider
call (gemini.js lines 205–220). -/
def parseQuickAttempt (quickParse : String → Option (List QuickReply))
    (text : String) : List QuickReply :=
  match extractDelimited '[' ']' text with
  | some candidate =>
      match quickParse candidate with
      | some parsed => parsed
      | none => defaultQuickReplies
  | none => defaultQuickReplies

/-- `generateQuickReplies` (gemini.js lines 182–222): like
`generateResponse`, no `try`/`catch` of its own. -/
def generateQuickReplies (geminiReady : Bool) (st : GeminiState)
    (attempts : Nat → AttemptResult String)
    (quickParse : String → Option (List QuickReply)) :
    Except JsError (Option (List QuickReply)) :=
  match (if geminiReady then .ok () else initGemini st) with
  | .error e => .error e
  | .ok _ =>
    match executeWithRetry
        (fun i => (attempts i).map (parseQuickAttempt quickParse)) 3 st with
    | (.value v, _) => .ok v
    | (.thrown e, _) => .error e

/- ===================== pinecone.js ===================== -/

/-- Metadata stored with a Pinecone match (pinecone.js lines 80–86). -/
structure MatchMetadata where
  question : String
  answer : String
  conversationId : String
  customerId : String
  timestamp : String
  deriving Repr, DecidableEq

/-- One ranked match returned by the index query. -/
structure QueryMatch where
  metadata : MatchMetadata
  score : ℚ
  deriving Repr, DecidableEq

/-- Data model `ContextDocument`: the record built by `queryRelevant`
(pinecone.js lines 133–140). -/
structure ContextDocument where
  question : String
  answer : String
  conversationId : String
  customerId : String
  timestamp : String
  score : ℚ
  deriving Repr, DecidableEq

/-- External collaborators of pinecone.js: whether the module-level `index`
is already set, the outcome of `initVectorDB` when it is not, the outcome of
the embedding call, and the outcome of the index query (`none` matches models
an `undefined` `results.matches`). -/
structure VectorEnv where
  indexReady : Bool
  initResult : Except JsError Unit
  embedResult : Except JsError (List ℚ)
  queryResult : List ℚ → Nat → Except JsError (Option (List QueryMatch))

/-- `initVectorDB` (pinecone.js lines 22–46): its `catch` logs and
*rethrows*, so the outcome is the underlying one. -/
def initVectorDB (env : VectorEnv) : Except JsError Unit :=
  env.initResult

/-- `generateEmbedding` (pinecone.js lines 51–61): on any failure of the
embedding call, return the 768-dimensional zero vector. -/
def generateEmbedding (env : VectorEnv) : List ℚ :=
  match env.embedResult with
  | .ok v => v
  | .error _ => List.replicate 768 0

/-- `queryRelevant` (pinecone.js lines 114–148).  The guard
`if (!index) await initVectorDB()` sits *before* the `try`, so an
initialization failure propagates; inside the `try`, a query failure is
caught and becomes `[]`, missing or empty `matches` becomes `[]`, and
otherwise the matches are formatted as `ContextDocument`s. -/
def queryRelevant (env : VectorEnv) (_query : String) (topK : Nat) :
    Except JsError (List ContextDocument) :=
  match (if env.indexReady then .ok () else initVectorDB env) with
  | .error e => .error e
  | .ok _ =>
    let queryEmbedding := generateEmbedding env
    match env.queryResult queryEmbedding topK with
    | .error _ => .ok []
    | .ok none => .ok []
    | .ok (some ms) =>
      if ms.length = 0 then .ok []
      else .ok (ms.map (fun m =>
        { question := m.metadata.question
          answer := m.metadata.answer
          conversationId := m.metadata.conversationId
          customerId := m.metadata.customerId
          timestamp := m.metadata.timestamp
          score := m.score }))

/- ===================== messageProcessor.js ===================== -/

/-- `config.ai.maxContextMessages` default (config.js line 60). -/
def maxContextMessages : Nat := 5

/-- The TypeError JS raises on a property access through `undefined` (e.g.
`aiResult.text` when the retry loop returned `undefined`). -/
def jsTypeError : JsError :=
  ⟨some ("Cannot read properties of undefined")⟩

/-- Customer profile row (`getOrCreateCustomer`). -/
structure Customer where
  name : Option String
  profilePic : Option String
  totalChats : Nat
  deriving Repr

/-- Facebook profile fetched by `getUserProfile`. -/
structure FbProfile where
  first_name : String
  last_name : String
  profile_pic : Option String
  deriving Repr

/-- A stored chat row, as returned by `getRecentMessages` (opaque to the
processor). -/
structure ChatMessage where
  sender : String
  text : String
  deriving Repr

/-- Return value of `processWithAI` (messageProcessor lines 102–112). -/
structure AiModeResult where
  aiResponse : String
  confidence : ℚ
  intent : String
  intentConfidence : ℚ
  shouldEscalate : Bool
  escalationReason : String
  priority : String
  customerInfo : Customer
  tokensUsed : Nat
  deriving Repr

/-- Return value of `processWithStaffAssist` (lines 125–136). -/
structure StaffAssistResult where
  messageText : String
  suggestedReplies : Option (List QuickReply)
  intent : String
  intentConfidence : ℚ
  intentSummary : String
  suggestedDepartment : String
  customerInfo : Customer
  recentMessages : List ChatMessage
  context : List ContextDocument
  deriving Repr

/-- The catch-all fallback object of `processMessage` (lines 69–75). -/
structure FallbackResult where
  aiResponse : String
  confidence : ℚ
  shouldEscalate : Bool
  escalationReason : String
  priority : String
  deriving Repr, DecidableEq

/-- The generic apology text of the fallback (line 70). -/
def apologyText : String :=
  "ขออภัยครับ ระบบขัดข้อง กรุณาลองใหม่อีกครั้งหรือติดต่อเจ้าหน้าที่ในเวลาทำการครับ"

/-- The safe fallback result returned by the catch of `processMessage`. -/
def fallbackResult : FallbackResult :=
  { aiResponse := apologyText, confidence := 0, shouldEscalate := true
    escalationReason := ("system_error"), priority := ("high") }

/-- The three shapes `processMessage` can return. -/
inductive PMResult where
  | ai (r : AiModeResult)
  | staff (r : StaffAssistResult)
  | fallback (r : FallbackResult)
  deriving Repr

/-- External collaborators of one `processMessage` run: database and
Facebook oracles, the Gemini module state and the per-call-site provider
oracles, and the vector-service environment. -/
structure ProcEnv where
  getOrCreateCustomer : Except JsError Customer
  getUserProfile : Except JsError (Option FbProfile)
  saveIncomingMessage : Except JsError Unit
  updateCustomerActivity : Except JsError Unit
  geminiReady : Bool
  gemini : GeminiState
  intentAttempts : Nat → AttemptResult String
  jsonParse : String → Option IntentResult
  vector : VectorEnv
  genAttempts : Nat → AttemptResult String
  genTokens : Nat → Nat
  saveAiMessage : Except JsError Unit
  quickAttempts : Nat → AttemptResult String
  quickParse : String → Option (List QuickReply)
  getRecentMessages : Except JsError (List ChatMessage)

/-- `processWithAI` (messageProcessor lines 82–113): generate, evaluate
escalation on the generated text/confidence/intent, save, and bundle.  When
the retry loop of `generateResponse` fell through (`aiResult` is
`undefined`), building the escalation argument accesses `aiResult.text`,
which raises a TypeError. -/
def processWithAI (env : ProcEnv) (messageText : String)
    (customerInfo : Customer) (intent : IntentResult) :
    Except JsError AiModeResult := do
  let genOut ← generateResponse env.geminiReady env.gemini env.genAttempts env.genTokens
  match genOut with
  | none => Except.error jsTypeError
  | some aiResult =>
    let escalationCheck :=
      shouldEscalate messageText ⟨aiResult.text, aiResult.confidence, some intent⟩
    let _ ← env.saveAiMessage
    pure
      { aiResponse := aiResult.text
        confidence := aiResult.confidence
        intent := intent.intent
        intentConfidence := intent.confidence
        shouldEscalate := escalationCheck.shouldEscalate
        escalationReason := escalationCheck.reason
        priority := escalationCheck.priority
        customerInfo := customerInfo
        tokensUsed := aiResult.tokensUsed }

/-- `processWithStaffAssist` (lines 118–137).  A fallen-through retry loop
leaves `suggestedReplies` as `undefined`; it is embedded in the result
without any property access, so no error is raised. -/
def processWithStaffAssist (env : ProcEnv) (messageText : String)
    (customerInfo : Customer) (intent : IntentResult)
    (context : List ContextDocument) : Except JsError StaffAssistResult := do
  let suggestedReplies ←
    generateQuickReplies env.geminiReady env.gemini env.quickAttempts env.quickParse
  let recentMessages ← env.getRecentMessages
  pure
    { messageText := messageText
      suggestedReplies := suggestedReplies
      intent := intent.intent
      intentConfidence := intent.confidence
      intentSummary := intent.summary
      suggestedDepartment := intent.suggestedDepartment
      customerInfo := customerInfo
      recentMessages := recentMessages
      context := context }

/-- The `try` body of `processMessage` (messageProcessor lines 24–66):
profile lookup and enrichment, intent detection, context retrieval, the two
persistence calls, then the mode branch.  `logger.debug` interpolates
`intent.intent`, which raises a TypeError when `detectIntent` returned
`undefined`. -/
def processMessageTry (env : ProcEnv) (messageText : String) (mode : String) :
    Except JsError PMResult := do
  let customerInfo ← env.getOrCreateCustomer
  let customerInfo ←
    if jsFalsyOptStr customerInfo.name then do
      let fbProfile ← env.getUserProfile
      match fbProfile with
      | some p =>
          pure { customerInfo with
                   name := some (String.trim (p.first_name ++ (" ") ++ p.last_name))
                   profilePic := p.profile_pic }
      | none => pure customerInfo
    else pure customerInfo
  let intentOpt ←
    detectIntent env.geminiReady env.gemini env.intentAttempts env.jsonParse messageText
  let intent ←
    match intentOpt with
    | none => Except.error jsTypeError
    | some i => pure i
  let context ← queryRelevant env.vector messageText maxContextMessages
  let _ ← env.saveIncomingMessage
  let _ ← env.updateCustomerActivity
  if mode = ("ai-auto") then
    (processWithAI env messageText customerInfo intent).map PMResult.ai
  else
    (processWithStaffAssist env messageText customerInfo intent context).map PMResult.staff

/-- `processMessage` (messageProcessor lines 21–77): run the body under the
top-level `try`; the `catch` logs and returns the safe fallback object. -/
def processMessage (env : ProcEnv) (messageText : String) (mode : String) :
    PMResult :=
  match processMessageTry env messageText mode with
  | .ok r => r
  | .error _ => .fallback fallbackResult

/- ===================== claim-specific fixtures ===================== -/

/-- Refinement target for C4, following the spec's words: subtract 0.1 for
*each occurrence* of each uncertainty phrase in the text (so a phrase that
occurs twice is penalised twice), then the same length bonus/penalty and
clamp. -/
def specConfidencePerOccurrence (text : String) : ℚ :=
  let totalOccurrences := (uncertaintyPhrases.map (countOccurrences text)).sum
  let afterPhrases := 0.8 - 0.1 * ((totalOccurrences : ℕ) : ℚ)
  let afterShort := if jsStrLen text < 100 then afterPhrases + 0.05 else afterPhrases
  let afterLong := if 500 < jsStrLen text then afterShort - 0.1 else afterShort
  max 0.3 (min 1.0 afterLong)

/-- A permanent rate-limit failure. -/
def quotaError : JsError := ⟨some ("429 Too Many Requests")⟩

/-- A permanent non-rate-limit failure. -/
def outageError : JsError := ⟨some ("ECONNRESET")⟩

/-- A vector environment whose index is uninitialized and whose
initialization fails. -/
def failingInitVectorEnv : VectorEnv :=
  { indexReady := false
    initResult := .error ⟨some ("PineconeConnectionError")⟩
    embedResult := .ok []
    queryResult := fun _ _ => .ok none }

/-- A concrete environment reproducing the spec's permanent-outage scenario:
every dependency is healthy except the generation capability, which throws a
non-rate-limit error on all 3 attempts. -/
def outageEnv : ProcEnv :=
  { getOrCreateCustomer := .ok ⟨some ("คุณลูกค้า"), none, 3⟩
    getUserProfile := .ok none
    saveIncomingMessage := .ok ()
    updateCustomerActivity := .ok ()
    geminiReady := true
    gemini := ⟨[("k1")], 0⟩
    intentAttempts := fun _ => .ok ("no json")
    jsonParse := fun _ => none
    vector :=
      { indexReady := true
        initResult := .ok ()
        embedResult := .ok []
        queryResult := fun _ _ => .ok none }
    genAttempts := fun _ => .err outageError
    genTokens := fun _ => 0
    saveAiMessage := .ok ()
    quickAttempts := fun _ => .ok ("x")
    quickParse := fun _ => none
    getRecentMessages := .ok [] }

/- ===================== helper lemmas ===================== -/

lemma escFactors_values_any (f : EscFactors) :
    f.values.any id =
      (f.lowConfidence || f.sensitiveTopics || f.customerFrustration ||
       f.highValueIntent || f.explicitRequest) := by
  rcases f with ⟨a, b, c, d, e⟩
  simp [EscFactors.values, Bool.or_assoc]

lemma shouldEscalate_factors (message : String) (aiResponse : AiResponseInfo) :
    (shouldEscalate message aiResponse).factors = computeFactors message aiResponse := rfl

/- ===================== C2 ===================== -/

/-- C2: for every input message and AI result, the verdict's `shouldEscalate`
flag is true iff at least one of the five factors (lowConfidence,
sensitiveTopics, customerFrustration, highValueIntent, explicitRequest) is
true — a plain logical OR, and the OR law holds over all 32 combinations of
the factor record. -/
theorem shouldEscalate_iff_some_factor :
    (∀ (message : String) (aiResponse : AiResponseInfo),
      ((shouldEscalate message aiResponse).shouldEscalate = true ↔
        ((shouldEscalate message aiResponse).factors.lowConfidence = true ∨
         (shouldEscalate message aiResponse).factors.sensitiveTopics = true ∨
         (shouldEscalate message aiResponse).factors.customerFrustration = true ∨
         (shouldEscalate message aiResponse).factors.highValueIntent = true ∨
         (shouldEscalate message aiResponse).factors.explicitRequest = true))) ∧
    (∀ f : EscFactors,
      (f.values.any id = true ↔
        (f.lowConfidence = true ∨ f.sensitiveTopics = true ∨
         f.customerFrustration = true ∨ f.highValueIntent = true ∨
         f.explicitRequest = true))) := by
  have key : ∀ f : EscFactors,
      (f.values.any id = true ↔
        (f.lowConfidence = true ∨ f.sensitiveTopics = true ∨
         f.customerFrustration = true ∨ f.highValueIntent = true ∨
         f.explicitRequest = true)) := by
    intro f
    rcases f with ⟨a, b, c, d, e⟩
    cases a <;> cases b <;> cases c <;> cases d <;> cases e <;> simp [EscFactors.values]
  refine ⟨fun message aiResponse => ?_, key⟩
  have h : (shouldEscalate message aiResponse).shouldEscalate =
      (computeFactors message aiResponse).values.any id := rfl
  rw [h, shouldEscalate_factors]
  exact key _

/- ===================== C3 ===================== -/

/-- C3: priority is high if sensitiveTopics or explicitRequest or ≥3 active
factors; else medium if customerFrustration or highValueIntent or ≥2 active
factors; else low.  In particular a message tripping only the sensitive-topic
factor (count 1) gets priority high, and a message tripping exactly
customerFrustration and highValueIntent (count 2, no forcing factor) gets
priority medium. -/
theorem escalation_priority_policy :
    (∀ f : EscFactors,
      (f.sensitiveTopics = true ∨ f.explicitRequest = true ∨
        3 ≤ (f.values.filter id).length) → calcPriority f = ("high")) ∧
    (∀ f : EscFactors,
      ¬(f.sensitiveTopics = true ∨ f.explicitRequest = true ∨
        3 ≤ (f.values.filter id).length) →
      (f.customerFrustration = true ∨ f.highValueIntent = true ∨
        2 ≤ (f.values.filter id).length) → calcPriority f = ("medium")) ∧
    (∀ f : EscFactors,
      ¬(f.sensitiveTopics = true ∨ f.explicitRequest = true ∨
        3 ≤ (f.values.filter id).length) →
      ¬(f.customerFrustration = true ∨ f.highValueIntent = true ∨
        2 ≤ (f.values.filter id).length) → calcPriority f = ("low")) ∧
    ((shouldEscalate ("ปิดบัญชี") ⟨"", 0.9, some (otherDefaultIntent (""))⟩).factors =
        ⟨false, true, false, false, false⟩ ∧
      (shouldEscalate ("ปิดบัญชี") ⟨"", 0.9, some (otherDefaultIntent (""))⟩).priority =
        ("high")) ∧
    ((shouldEscalate ("ทำไมช้า") ⟨"", 0.9, some ⟨("LOAN"), 0.5, [], "", "", false⟩⟩).factors =
        ⟨false, false, true, true, false⟩ ∧
      (shouldEscalate ("ทำไมช้า") ⟨"", 0.9, some ⟨("LOAN"), 0.5, [], "", "", false⟩⟩).priority =
        ("medium")) := by
  refine ⟨?_, ?_, ?_, ?_, ?_⟩
  · intro f h
    have hcond : (f.sensitiveTopics || f.explicitRequest ||
        decide (3 ≤ (f.values.filter id).length)) = true := by
      rcases h with h | h | h
      · simp [h]
      · simp [h]
      · simp [decide_eq_true h]
    simp [calcPriority, hcond]
  · intro f hhigh hmed
    simp only [not_or] at hhigh
    obtain ⟨h1, h2, h3⟩ := hhigh
    replace h1 : f.sensitiveTopics = false := by simpa using h1
    replace h2 : f.explicitRequest = false := by simpa using h2
    have hcondh : (f.sensitiveTopics || f.explicitRequest ||
        decide (3 ≤ (f.values.filter id).length)) = false := by
      simp [h1, h2, decide_eq_false h3]
    have hcondm : (f.customerFrustration || f.highValueIntent ||
        decide (2 ≤ (f.values.filter id).length)) = true := by
      rcases hmed with h | h | h
      · simp [h]
      · simp [h]
      · simp [decide_eq_true h]
    simp [calcPriority, hcondh, hcondm]
  · intro f hhigh hmed
    simp only [not_or] at hhigh hmed
    obtain ⟨h1, h2, h3⟩ := hhigh
    obtain ⟨h4, h5, h6⟩ := hmed
    replace h1 : f.sensitiveTopics = false := by simpa using h1
    replace h2 : f.explicitRequest = false := by simpa using h2
    replace h4 : f.customerFrustration = false := by simpa using h4
    replace h5 : f.highValueIntent = false := by simpa using h5
    have hcondh : (f.sensitiveTopics || f.explicitRequest ||
        decide (3 ≤ (f.values.filter id).length)) = false := by
      simp [h1, h2, decide_eq_false h3]
    have hcondm : (f.customerFrustration || f.highValueIntent ||
        decide (2 ≤ (f.values.filter id).length)) = false := by
      simp [h4, h5, decide_eq_false h6]
    simp [calcPriority, hcondh, hcondm]
  · constructor
    · simp only [shouldEscalate, computeFactors, otherDefaultIntent]
      norm_num [confidenceThreshold]
      decide
    · simp only [shouldEscalate, calcPriority, computeFactors, otherDefaultIntent]
      norm_num [confidenceThreshold]
      decide
  · constructor
    · simp only [shouldEscalate, computeFactors]
      norm_num [confidenceThreshold]
      decide
    · simp only [shouldEscalate, calcPriority, computeFactors]
      norm_num [confidenceThreshold]
      decide

/-- Closed instance of `escalation_priority_policy`: the single forcing
factor `sensitiveTopics` (count 1) yields high, and
customerFrustration+highValueIntent with no forcing factor (count 2) yields
medium. -/
theorem escalation_priority_policy_witness :
    calcPriority ⟨false, true, false, false, false⟩ = ("high") ∧
    calcPriority ⟨false, false, true, true, false⟩ = ("medium") :=
  ⟨escalation_priority_policy.1 ⟨false, true, false, false, false⟩ (Or.inl rfl),
   escalation_priority_policy.2.1 ⟨false, false, true, true, false⟩ (by decide)
     (Or.inl rfl)⟩

/- ===================== C10 ===================== -/

/-- C10: the highValueIntent factor is true iff the nested intent string is
one of exactly COMPLAINT, LOAN, ACCOUNT_CLOSE (and false when no intent
object is present); ACCOUNT_CLOSE is not in the classifier's closed output
vocabulary, so for any intent drawn from that vocabulary the factor is true
iff the intent is COMPLAINT or LOAN. -/
theorem highValueIntent_factor_characterisation :
    (∀ (message : String) (aiResponse : AiResponseInfo) (io : IntentResult),
      aiResponse.intent = some io →
        ((computeFactors message aiResponse).highValueIntent = true ↔
          (io.intent = ("COMPLAINT") ∨ io.intent = ("LOAN") ∨
           io.intent = ("ACCOUNT_CLOSE")))) ∧
    (∀ (message : String) (aiResponse : AiResponseInfo),
      aiResponse.intent = none →
        (computeFactors message aiResponse).highValueIntent = false) ∧
    (("ACCOUNT_CLOSE") ∉ intentVocabulary) ∧
    (∀ (message : String) (aiResponse : AiResponseInfo) (io : IntentResult),
      aiResponse.intent = some io → io.intent ∈ intentVocabulary →
        ((computeFactors message aiResponse).highValueIntent = true ↔
          (io.intent = ("COMPLAINT") ∨ io.intent = ("LOAN")))) := by
  have hmem : ∀ (message : String) (aiResponse : AiResponseInfo) (io : IntentResult),
      aiResponse.intent = some io →
        ((computeFactors message aiResponse).highValueIntent = true ↔
          (io.intent = ("COMPLAINT") ∨ io.intent = ("LOAN") ∨
           io.intent = ("ACCOUNT_CLOSE"))) := by
    intro message aiResponse io h
    simp only [computeFactors, h]
    simp [highValueIntents]
  refine ⟨hmem, ?_, by decide, ?_⟩
  · intro message aiResponse h
    simp [computeFactors, h]
  · intro message aiResponse io h hvocab
    rw [hmem message aiResponse io h]
    constructor
    · rintro (h' | h' | h')
      · exact Or.inl h'
      · exact Or.inr h'
      · rw [h'] at hvocab
        exact absurd hvocab (by decide)
    · rintro (h' | h')
      · exact Or.inl h'
      · exact Or.inr (Or.inl h')

/-- Closed instance of `highValueIntent_factor_characterisation`: a LOAN
intent (drawn from the classifier vocabulary) makes the factor true. -/
theorem highValueIntent_factor_witness :
    (computeFactors ("") ⟨"", 0.9, some ⟨("LOAN"), 0.5, [], "", "", false⟩⟩).highValueIntent
      = true :=
  ((highValueIntent_factor_characterisation.2.2.2 ("")
      ⟨"", 0.9, some ⟨("LOAN"), 0.5, [], "", "", false⟩⟩
      ⟨("LOAN"), 0.5, [], "", "", false⟩ rfl (by decide)).mpr
    (Or.inr rfl))

/- ===================== C4 ===================== -/

lemma foldl_phrase_penalty (inc : String → Bool) (l : List String) (a : ℚ) :
    l.foldl (fun c phrase => if inc phrase then c - 0.1 else c) a =
      a - 0.1 * ((l.countP inc : ℕ) : ℚ) := by
  induction l generalizing a with
  | nil => simp
  | cons hd tl ih =>
    by_cases hc : inc hd
    · simp only [List.foldl_cons, List.countP_cons, hc, ih]
      simp
      ring
    · simp only [List.foldl_cons, List.countP_cons, hc, ih]
      simp

/-- C4 counterexample: on a text containing the phrase `อาจจะ` twice, the
source's `calculateConfidence` (which tests each phrase once with
`text.includes`) yields 0.75, while the claim's per-occurrence heuristic
yields 0.65 — so the produced confidence does not equal the claimed
per-occurrence formula. -/
theorem calculateConfidence_per_occurrence_counterexample :
    calculateConfidence ("อาจจะอาจจะ") = 0.75 ∧
    specConfidencePerOccurrence ("อาจจะอาจจะ") = 0.65 ∧
    calculateConfidence ("อาจจะอาจจะ") ≠ specConfidencePerOccurrence ("อาจจะอาจจะ") := by
  have hcount : uncertaintyPhrases.countP (fun p => jsIncludes ("อาจจะอาจจะ") p) = 1 := by
    decide
  have hocc : (uncertaintyPhrases.map (countOccurrences ("อาจจะอาจจะ"))).sum = 2 := by
    decide
  have hlen : jsStrLen ("อาจจะอาจจะ") = 10 := by decide
  have h1 : calculateConfidence ("อาจจะอาจจะ") = 0.75 := by
    simp only [calculateConfidence, foldl_phrase_penalty, hcount, hlen]
    norm_num
  have h2 : specConfidencePerOccurrence ("อาจจะอาจจะ") = 0.65 := by
    simp only [specConfidencePerOccurrence, hocc, hlen]
    norm_num
  refine ⟨h1, h2, ?_⟩
  rw [h1, h2]
  norm_num

/-- C4 (amended): `calculateConfidence` equals the heuristic that starts at
0.8, subtracts 0.1 once for each phrase of the uncertainty list *contained*
in the text (presence, not occurrence count), adds 0.05 when the text is
shorter than 100 UTF-16 units, subtracts 0.1 when longer than 500, and clamps
to [0.3, 1.0]; consequently every produced confidence lies in [0.3, 1.0]. -/
theorem calculateConfidence_presence_formula_and_bounds :
    ∀ text : String,
      calculateConfidence text =
        max 0.3 (min 1.0
          ((0.8 - 0.1 * ((uncertaintyPhrases.countP (fun p => jsIncludes text p) : ℕ) : ℚ)
            + (if jsStrLen text < 100 then 0.05 else 0))
            - (if 500 < jsStrLen text then 0.1 else 0))) ∧
      0.3 ≤ calculateConfidence text ∧ calculateConfidence text ≤ 1 := by
  intro text
  have hform : calculateConfidence text =
      max 0.3 (min 1.0
        ((0.8 - 0.1 * ((uncertaintyPhrases.countP (fun p => jsIncludes text p) : ℕ) : ℚ)
          + (if jsStrLen text < 100 then 0.05 else 0))
          - (if 500 < jsStrLen text then 0.1 else 0))) := by
    simp only [calculateConfidence, foldl_phrase_penalty]
    by_cases hs : jsStrLen text < 100 <;> by_cases hl : 500 < jsStrLen text <;>
      simp [hs, hl]
  refine ⟨hform, ?_, ?_⟩
  · rw [hform]
    exact le_max_left _ _
  · rw [hform]
    exact max_le (by norm_num) (le_trans (min_le_left _ _) (by norm_num))

/- ===================== C8 / C9 ===================== -/

lemma getNextKey_state (st : GeminiState) (h : st.apiKeys ≠ []) :
    (getNextKey st).2 =
      ⟨st.apiKeys, (st.currentKeyIndex + 1) % st.apiKeys.length⟩ := by
  have hlen : st.apiKeys.length ≠ 0 := by
    simpa using List.length_pos.mpr h |>.ne.symm
  simp [getNextKey, hlen]

lemma rotateIter_state (st : GeminiState) (h : st.apiKeys ≠ [])
    (hi : st.currentKeyIndex < st.apiKeys.length) (n : Nat) :
    rotateIter st n =
      ⟨st.apiKeys, (st.currentKeyIndex + n) % st.apiKeys.length⟩ := by
  induction n generalizing st with
  | zero =>
    rcases st with ⟨ks, i⟩
    simp only [rotateIter, Nat.add_zero]
    simp [Nat.mod_eq_of_lt hi]
  | succ n ih =>
    have hlen : 0 < st.apiKeys.length := List.length_pos.mpr h
    have hstep : rotateIter st (n + 1) = rotateIter (getNextKey st).2 n := rfl
    rw [hstep, getNextKey_state st h]
    rw [ih ⟨st.apiKeys, (st.currentKeyIndex + 1) % st.apiKeys.length⟩ h
        (Nat.mod_lt _ hlen)]
    simp only [GeminiState.mk.injEq, true_and]
    rw [Nat.mod_add_mod]
    congr 1
    omega

/-- C8 counterexample: in a pool of size N = 2 starting at cursor 0, the
(N+1)-th = 3rd consecutive `rotate()` call returns the second key, not the
original current key — N+1 rotations do not return to the original key. -/
theorem keyRotation_Nplus1_counterexample :
    (getNextKey (rotateIter ⟨[("keyA"), ("keyB")], 0⟩ 2)).1 ≠
      getCurrentKey ⟨[("keyA"), ("keyB")], 0⟩ ∧
    (getNextKey (rotateIter ⟨[("keyA"), ("keyB")], 0⟩ 2)).1 = some ("keyB") ∧
    getCurrentKey ⟨[("keyA"), ("keyB")], 0⟩ = some ("keyA") := by
  decide

/-- C8 (amended): rotation is circular with period N = poolSize: for any
non-empty pool and valid starting cursor, N rotations restore the state, and
the N-th consecutive `rotate()` call (not the (N+1)-th) returns the original
current key; each rotation advances the cursor to (index+1) mod poolSize. -/
theorem keyRotation_circular (ks : List String) (i : Nat) (h : ks ≠ [])
    (hi : i < ks.length) :
    rotateIter ⟨ks, i⟩ ks.length = ⟨ks, i⟩ ∧
    (getNextKey (rotateIter ⟨ks, i⟩ (ks.length - 1))).1 = getCurrentKey ⟨ks, i⟩ ∧
    (getNextKey ⟨ks, i⟩).2.currentKeyIndex = (i + 1) % ks.length := by
  have hlen : 0 < ks.length := List.length_pos.mpr h
  have hlen0 : ¬ ks.length = 0 := hlen.ne'
  refine ⟨?_, ?_, ?_⟩
  · rw [rotateIter_state ⟨ks, i⟩ h hi]
    simp only [GeminiState.mk.injEq, true_and]
    rw [Nat.add_mod_right, Nat.mod_eq_of_lt hi]
  · rw [rotateIter_state ⟨ks, i⟩ h hi]
    simp only [getNextKey, getCurrentKey, hlen0, if_false]
    congr 1
    rw [Nat.mod_add_mod]
    have harith : i + (ks.length - 1) + 1 = i + ks.length := by omega
    rw [harith, Nat.add_mod_right, Nat.mod_eq_of_lt hi]
  · simp [getNextKey, hlen0]

/-- Closed instance of `keyRotation_circular` on a pool of 3 keys starting at
cursor 1. -/
theorem keyRotation_circular_witness :
    rotateIter ⟨[("k1"), ("k2"), ("k3")], 1⟩ 3 = ⟨[("k1"), ("k2"), ("k3")], 1⟩ ∧
    (getNextKey (rotateIter ⟨[("k1"), ("k2"), ("k3")], 1⟩ 2)).1 =
      getCurrentKey ⟨[("k1"), ("k2"), ("k3")], 1⟩ :=
  ⟨(keyRotation_circular [("k1"), ("k2"), ("k3")] 1 (by decide) (by decide)).1,
   (keyRotation_circular [("k1"), ("k2"), ("k3")] 1 (by decide) (by decide)).2.1⟩

/-- C9 counterexample: with all eight key environment variables unset, the
pool is constructed anyway (no fail-fast): the result is an *empty* pool with
cursor 0, whose cursor is not a valid index into a non-empty pool. -/
theorem keyPool_construction_counterexample :
    mkGeminiConfig (List.replicate 8 none) =
      { apiKeys := [], currentKeyIndex := 0 } ∧
    ¬ ((mkGeminiConfig (List.replicate 8 none)).currentKeyIndex <
        (mkGeminiConfig (List.replicate 8 none)).apiKeys.length) := by
  decide

/-- C9 (amended): pool construction itself never fails; instead
`initGemini` fails fast (throws "No Gemini API key configured") whenever the
constructed pool is empty, and on a non-empty pool with a valid cursor every
rotation preserves currentKeyIndex ∈ [0, poolSize) and returns an actual
key. -/
theorem keyPool_initFail_and_index_invariant :
    (∀ env : List (Option String), mkGeminiApiKeys env = [] →
      initGemini (mkGeminiConfig env) =
        .error ⟨some ("No Gemini API key configured")⟩) ∧
    (∀ st : GeminiState, st.apiKeys ≠ [] →
      st.currentKeyIndex < st.apiKeys.length →
      ∀ n, (rotateIter st n).apiKeys = st.apiKeys ∧
           (rotateIter st n).currentKeyIndex < st.apiKeys.length) ∧
    (∀ st : GeminiState, st.apiKeys ≠ [] →
      st.currentKeyIndex < st.apiKeys.length →
      ((getNextKey st).1.isSome = true ∧
       (getNextKey st).2.currentKeyIndex < st.apiKeys.length)) := by
  refine ⟨?_, ?_, ?_⟩
  · intro env h
    simp [initGemini, mkGeminiConfig, getCurrentKey, h]
  · intro st h hi n
    have hlen : 0 < st.apiKeys.length := List.length_pos.mpr h
    rw [rotateIter_state st h hi n]
    exact ⟨rfl, Nat.mod_lt _ hlen⟩
  · intro st h hi
    have hlen : 0 < st.apiKeys.length := List.length_pos.mpr h
    have hlen0 : ¬ st.apiKeys.length = 0 := hlen.ne'
    constructor
    · simp only [getNextKey, hlen0, if_false]
      rw [List.get?_eq_get (Nat.mod_lt _ hlen)]
      rfl
    · simp only [getNextKey, hlen0, if_false]
      exact Nat.mod_lt _ hlen

/-- Closed instance of `keyPool_initFail_and_index_invariant`: the empty
construction makes `initGemini` throw, and five rotations of a singleton pool
stay in range. -/
theorem keyPool_initFail_and_index_invariant_witness :
    initGemini (mkGeminiConfig (List.replicate 8 none)) =
      .error ⟨some ("No Gemini API key configured")⟩ ∧
    (rotateIter ⟨[("k1")], 0⟩ 5).currentKeyIndex < 1 :=
  ⟨keyPool_initFail_and_index_invariant.1 (List.replicate 8 none) (by decide),
   (keyPool_initFail_and_index_invariant.2.1 ⟨[("k1")], 0⟩ (by decide)
      (by decide) 5).2⟩

/- ===================== C7 ===================== -/

/-- C7 counterexample: when every one of the 3 attempts fails with a
rate-limit/quota error, `executeWithRetry` does not fail at all — the loop
falls through and the function *returns* JS `undefined` (a non-error value),
rather than failing with any error (there is no `ProviderExhaustedError`
anywhere in the source). -/
theorem executeWithRetry_quota_exhaustion_counterexample :
    (executeWithRetry (fun _ => (AttemptResult.err quotaError : AttemptResult String)) 3
        ⟨[("k1"), ("k2")], 0⟩).1 = RunOutcome.value none := by
  have hq : isRateLimitError quotaError = true := by decide
  simp [executeWithRetry, executeWithRetryGo, hq, rotateApiKey]

/-- C7 (amended): when all 3 attempts of `executeWithRetry` fail, the
terminal outcome depends on the classification of the *final* attempt's
error: a non-rate-limit error is rethrown as-is (no dedicated
`ProviderExhaustedError` type exists), while a rate-limit/quota error makes
the loop fall through and return `undefined`. -/
theorem executeWithRetry_all_attempts_fail (fn : Nat → AttemptResult α)
    (st : GeminiState) (e0 e1 e2 : JsError)
    (h0 : fn 0 = .err e0) (h1 : fn 1 = .err e1) (h2 : fn 2 = .err e2) :
    (executeWithRetry fn 3 st).1 =
      (if isRateLimitError e2 then RunOutcome.value none
       else RunOutcome.thrown e2) := by
  by_cases q0 : isRateLimitError e0 <;> by_cases q1 : isRateLimitError e1 <;>
    by_cases q2 : isRateLimitError e2 <;>
      simp [executeWithRetry, executeWithRetryGo, h0, h1, h2, q0, q1, q2,
        rotateApiKey]

/-- Closed instance of `executeWithRetry_all_attempts_fail`: a permanent
non-rate-limit outage on all 3 attempts rethrows the final error. -/
theorem executeWithRetry_all_attempts_fail_witness :
    (executeWithRetry (fun _ => (AttemptResult.err outageError : AttemptResult String)) 3
        ⟨[("k1")], 0⟩).1 = RunOutcome.thrown outageError := by
  have h := executeWithRetry_all_attempts_fail
    (fun _ => (AttemptResult.err outageError : AttemptResult String)) ⟨[("k1")], 0⟩
    outageError outageError outageError rfl rfl rfl
  rwa [if_neg (by decide)] at h

/- ===================== C5 ===================== -/

/-- C5 counterexample: with an initialized model and a provider reply whose
text contains no JSON object, `detectIntent` returns the inline default —
intent OTHER (not GENERAL_INQUIRY), confidence 0.5 (not 0.3), and no error
flag. -/
theorem detectIntent_parse_failure_counterexample :
    detectIntent true ⟨[("k1")], 0⟩ (fun _ => .ok ("no structured reply"))
        (fun _ => none) ("hi") = .ok (some (otherDefaultIntent ("hi"))) ∧
    (otherDefaultIntent ("hi")).intent = ("OTHER") ∧
    (otherDefaultIntent ("hi")).intent ≠ ("GENERAL_INQUIRY") ∧
    (otherDefaultIntent ("hi")).confidence = 0.5 ∧
    (otherDefaultIntent ("hi")).error = false := by
  have hparse : parseIntentAttempt (fun _ => none) ("hi") ("no structured reply") =
      otherDefaultIntent ("hi") := rfl
  refine ⟨?_, rfl, by decide, rfl, rfl⟩
  simp [detectIntent, executeWithRetry, executeWithRetryGo, AttemptResult.map,
    hparse]

/-- C5 (amended): when the provider call succeeds but its text fails JSON
extraction/parsing, `detectIntent` returns the inline default with
intent=OTHER, confidence=0.5 and no error flag; when the retries are
exhausted by a thrown (non-rate-limit) error, it returns the
GENERAL_INQUIRY/0.3/error=true default; and once the model is initialized it
never throws. -/
theorem detectIntent_failure_policy :
    (∀ (st : GeminiState) (attempts : Nat → AttemptResult String)
        (jsonParse : String → Option IntentResult) (message text : String),
      attempts 0 = .ok text →
      parseIntentAttempt jsonParse message text = otherDefaultIntent message →
      detectIntent true st attempts jsonParse message =
        .ok (some (otherDefaultIntent message))) ∧
    (∀ (st : GeminiState) (attempts : Nat → AttemptResult String)
        (jsonParse : String → Option IntentResult) (message : String)
        (e0 e1 e2 : JsError),
      attempts 0 = .err e0 → attempts 1 = .err e1 → attempts 2 = .err e2 →
      isRateLimitError e2 = false →
      detectIntent true st attempts jsonParse message =
        .ok (some (generalInquiryIntent message))) ∧
    (∀ (st : GeminiState) (attempts : Nat → AttemptResult String)
        (jsonParse : String → Option IntentResult) (message : String),
      ∃ v, detectIntent true st attempts jsonParse message = .ok v) := by
  refine ⟨?_, ?_, ?_⟩
  · intro st attempts jsonParse message text h0 hparse
    simp [detectIntent, executeWithRetry, executeWithRetryGo, AttemptResult.map,
      h0, hparse]
  · intro st attempts jsonParse message e0 e1 e2 h0 h1 h2 hq2
    by_cases q0 : isRateLimitError e0 <;> by_cases q1 : isRateLimitError e1 <;>
      simp [detectIntent, executeWithRetry, executeWithRetryGo,
        AttemptResult.map, h0, h1, h2, q0, q1, hq2, rotateApiKey]
  · intro st attempts jsonParse message
    rcases hrun : executeWithRetry
        (fun i => (attempts i).map (parseIntentAttempt jsonParse message)) 3 st
      with ⟨out, st'⟩
    cases out with
    | value v => exact ⟨v, by simp [detectIntent, hrun]⟩
    | thrown e =>
        exact ⟨some (generalInquiryIntent message), by simp [detectIntent, hrun]⟩

/-- Closed instance of `detectIntent_failure_policy`: a successful provider
call with unparseable text yields the OTHER/0.5 inline default. -/
theorem detectIntent_failure_policy_witness :
    detectIntent true ⟨[("k")], 0⟩ (fun _ => .ok ("plain text"))
      (fun _ => none) ("hello") = .ok (some (otherDefaultIntent ("hello"))) :=
  detectIntent_failure_policy.1 ⟨[("k")], 0⟩ (fun _ => .ok ("plain text"))
    (fun _ => none) ("hello") ("plain text") rfl rfl

/- ===================== C6 ===================== -/

/-- C6 counterexample: when the index is uninitialized and `initVectorDB`
fails, `queryRelevant` propagates the exception (the init call sits before
its `try`/`catch`) instead of returning an empty sequence. -/
theorem queryRelevant_init_failure_counterexample :
    queryRelevant failingInitVectorEnv ("สวัสดี") 5 =
      .error ⟨some ("PineconeConnectionError")⟩ := by
  simp [queryRelevant, initVectorDB, failingInitVectorEnv]

/-- C6 (amended): once the index is initialized (or when on-demand
initialization succeeds), `queryRelevant` never throws — every failure of the
embedding step (replaced by a 768-dimensional zero vector) or of the index
query (caught, yielding `[]`) still produces an `ok` list; but an
initialization failure on an uninitialized index propagates as an
exception. -/
theorem queryRelevant_no_throw_after_init :
    (∀ (env : VectorEnv) (query : String) (topK : Nat),
      (env.indexReady = true ∨ env.initResult = .ok ()) →
      ∃ docs, queryRelevant env query topK = .ok docs) ∧
    (∀ (env : VectorEnv) (e : JsError),
      env.embedResult = .error e →
      generateEmbedding env = List.replicate 768 0) ∧
    (∀ (env : VectorEnv) (query : String) (topK : Nat) (e : JsError),
      env.indexReady = true →
      env.queryResult (generateEmbedding env) topK = .error e →
      queryRelevant env query topK = .ok []) := by
  refine ⟨?_, ?_, ?_⟩
  · intro env query topK h
    have hinit : (if env.indexReady then (.ok () : Except JsError Unit)
        else initVectorDB env) = .ok () := by
      rcases h with h | h
      · simp [h]
      · by_cases hr : env.indexReady <;> simp [hr, initVectorDB, h]
    rcases hq : env.queryResult (generateEmbedding env) topK with e | om
    · exact ⟨[], by simp [queryRelevant, hinit, hq]⟩
    · cases om with
      | none => exact ⟨[], by simp [queryRelevant, hinit, hq]⟩
      | some ms =>
          by_cases hlen : ms.length = 0
          · exact ⟨[], by simp [queryRelevant, hinit, hq, hlen]⟩
          · refine ⟨ms.map (fun m =>
              { question := m.metadata.question
                answer := m.metadata.answer
                conversationId := m.metadata.conversationId
                customerId := m.metadata.customerId
                timestamp := m.metadata.timestamp
                score := m.score }), ?_⟩
            simp [queryRelevant, hinit, hq, hlen]
  · intro env e h
    simp [generateEmbedding, h]
  · intro env query topK e hready hq
    simp [queryRelevant, hready, hq]

/-- Closed instance of `queryRelevant_no_throw_after_init`: with an
initialized index, a failing embedding call and a failing query call,
`queryRelevant` still returns a value (the empty list), not an exception. -/
theorem queryRelevant_no_throw_after_init_witness :
    queryRelevant
      { indexReady := true
        initResult := .ok ()
        embedResult := .error ⟨some ("embed down")⟩
        queryResult := fun _ _ => .error ⟨some ("query down")⟩ }
      ("สอบถามยอด") 5 = .ok [] :=
  queryRelevant_no_throw_after_init.2.2
    { indexReady := true
      initResult := .ok ()
      embedResult := .error ⟨some ("embed down")⟩
      queryResult := fun _ _ => .error ⟨some ("query down")⟩ }
    ("สอบถามยอด") 5 ⟨some ("query down")⟩ rfl rfl

/- ===================== C1 ===================== -/

/-- C1: `processMessage` never propagates an exception: for every
environment, message and mode, either the orchestrator body succeeds and its
result is returned unchanged, or the body raises and `processMessage`
returns exactly the safe fallback (generic apology text, confidence 0,
shouldEscalate true, reason "system_error", priority "high").  In
particular, when the generation capability throws on all 3 attempts, the
fallback is returned. -/
theorem processMessage_never_throws :
    (∀ (env : ProcEnv) (messageText mode : String),
      (∃ r, processMessageTry env messageText mode = .ok r ∧
        processMessage env messageText mode = r) ∨
      (∃ e, processMessageTry env messageText mode = .error e ∧
        processMessage env messageText mode = PMResult.fallback
          { aiResponse := apologyText
            confidence := 0
            shouldEscalate := true
            escalationReason := ("system_error")
            priority := ("high") })) ∧
    processMessage outageEnv ("สวัสดีครับ") ("ai-auto") =
      PMResult.fallback fallbackResult := by
  constructor
  · intro env messageText mode
    rcases h : processMessageTry env messageText mode with e | r
    · right
      exact ⟨e, rfl, by simp [processMessage, h, fallbackResult]⟩
    · left
      exact ⟨r, rfl, by simp [processMessage, h]⟩
  · have hgen : generateResponse true ⟨[("k1")], 0⟩
        (fun _ => AttemptResult.err outageError) (fun _ => 0) =
        .error outageError := by
      have hq : isRateLimitError outageError = false := by decide
      simp [generateResponse, executeWithRetry, executeWithRetryGo,
        AttemptResult.map, hq]
    have htry : processMessageTry outageEnv ("สวัสดีครับ") ("ai-auto") =
        .error outageError := by
      simp [processMessageTry, outageEnv, detectIntent, executeWithRetry,
        executeWithRetryGo, AttemptResult.map, queryRelevant, processWithAI,
        hgen, jsFalsyOptStr, Bind.bind, Except.bind, Except.map, pure,
        Except.pure]
    simp [processMessage, htry]
